import Mathlib

/-!
# Blogify authentication core — shallow embedding

This file embeds the authentication subsystem of the Blogify repository
(User model, `routes/auth.js`, `middleware/auth.js`, and the client
axios interceptors in `blogify-client/src/services/api.js`) as executable
Lean definitions, and proves the specified properties about them.

Conventions of the embedding:
* JavaScript exceptions are values of `JsError` (a `name` and a `message`),
  and fallible operations return `Except JsError α`; the `try`/`catch` of a route
  is an explicit `match` on that result.
* The HMAC of the external `jsonwebtoken` library is idealized as an injective
  function of the secret and the signed payload (`JwtSignature` records
  both), which is the standard collision-free idealization of a MAC.
* The external `bcryptjs` hash is likewise idealized: `BcryptHash` records
  the salt and the hashed content, and `bcryptCompare` re-hashes the
  candidate with the stored salt, exactly as the compare of bcrypt does.
* Wire-level JWT strings either parse into header/payload/signature or do
  not; `TokenWire` captures the two cases.
* JSON response bodies are values of a small `Json` type so that presence
  of a field anywhere in a body is a decidable, checkable predicate.
-/

/-- A JavaScript exception as observed by `catch` blocks: its `name`
(e.g. `"JsonWebTokenError"`, `"TokenExpiredError"`) and its `message`. -/
structure JsError where
  name : String
  message : String
deriving DecidableEq, Repr

/-- JWT payload as produced by `jwt.sign({ userId: user._id, email: user.email }, ...)`
together with the `iat` and `exp` claims the library adds. -/
structure JwtPayload where
  userId : String
  email : String
  iat : Nat
  exp : Nat
deriving DecidableEq, Repr

/-- Idealized HMAC signature: a MAC is modelled as an injective function of
the secret and the signed payload, so the structure simply records both.
Two signatures agree exactly when both secret and payload agree
(collision-free idealization). -/
structure JwtSignature where
  secret : String
  signed : JwtPayload
deriving DecidableEq, Repr

/-- Compute the (idealized) HMAC of a payload under a secret. -/
def hmacSign (secret : String) (p : JwtPayload) : JwtSignature := ⟨secret, p⟩

/-- A structurally parsed JWT: payload plus signature (the header only
declares the fixed algorithm and is elided). -/
structure JwtToken where
  payload : JwtPayload
  signature : JwtSignature
deriving DecidableEq, Repr

/-- A JWT string on the wire: either it parses into the three dot-separated
segments (`tok`) or it does not (`malformed`). -/
inductive TokenWire where
  | malformed (s : String)
  | tok (t : JwtToken)
deriving DecidableEq, Repr

/-- `JWT_SECRET` from `routes/auth.js` / `middleware/auth.js`:
`process.env.JWT_SECRET || "your_secret_key_change_this_in_production"`;
the embedding uses the hardcoded development fallback. -/
def JWT_SECRET : String := "your_secret_key_change_this_in_production"

/-- `JWT_EXPIRES_IN = "7d"` from `routes/auth.js`, in seconds. -/
def JWT_EXPIRES_IN_SECONDS : Nat := 7 * 24 * 60 * 60

/-- `jwt.sign({ userId, email }, secret, { expiresIn })` at time `now`
(seconds): payload `{userId, email, iat = now, exp = now + expiresIn}`,
signed with the secret. -/
def jwtSign (secret : String) (userId email : String) (now expiresIn : Nat) : JwtToken :=
  let p : JwtPayload := ⟨userId, email, now, now + expiresIn⟩
  ⟨p, hmacSign secret p⟩

/-- `jwt.verify(token, secret)` at time `now`: a malformed string throws
`JsonWebTokenError "jwt malformed"`; a bad signature throws
`JsonWebTokenError "invalid signature"`; then expiry is checked
(`TokenExpiredError` when `now ≥ exp`, as in the library); otherwise the
decoded payload is returned. Signature is checked before expiry, as in
`jsonwebtoken`. -/
def jwtVerify (secret : String) (now : Nat) (w : TokenWire) : Except JsError JwtPayload :=
  match w with
  | .malformed _ => .error ⟨"JsonWebTokenError", "jwt malformed"⟩
  | .tok t =>
    if t.signature ≠ hmacSign secret t.payload then
      .error ⟨"JsonWebTokenError", "invalid signature"⟩
    else if t.payload.exp ≤ now then
      .error ⟨"TokenExpiredError", "jwt expired"⟩
    else
      .ok t.payload

/-- A small JSON value type for response bodies, so that the presence of a
field anywhere in a body is a checkable predicate. -/
inductive Json where
  | str (s : String)
  | num (n : Nat)
  | bool (b : Bool)
  | null
  | obj (fields : List (String × Json))
  | arr (elems : List Json)
deriving Repr

mutual

/-- Does key `k` occur as an object key anywhere in this JSON value? -/
def Json.hasKey (k : String) : Json → Bool
  | .str _ => false
  | .num _ => false
  | .bool _ => false
  | .null => false
  | .obj fs => Json.hasKeyFields k fs
  | .arr xs => Json.hasKeyElems k xs

/-- `Json.hasKey` over the field list of an object. -/
def Json.hasKeyFields (k : String) : List (String × Json) → Bool
  | [] => false
  | (k', v) :: rest => k' == k || Json.hasKey k v || Json.hasKeyFields k rest

/-- `Json.hasKey` over the element list of an array. -/
def Json.hasKeyElems (k : String) : List Json → Bool
  | [] => false
  | v :: rest => Json.hasKey k v || Json.hasKeyElems k rest

end

/-- Serialization of a JWT payload, as the (base64-decoded) middle segment
of the token string: exactly the keys `userId`, `email`, `iat`, `exp`. -/
def payloadToJson (p : JwtPayload) : Json :=
  Json.obj [("userId", Json.str p.userId), ("email", Json.str p.email),
            ("iat", Json.num p.iat), ("exp", Json.num p.exp)]

/-- The token as it appears in a response body: its header declares the
algorithm, its payload segment is world-readable JSON, and its signature
segment is an opaque MAC string (carrying no fields). -/
def tokenToJson (t : JwtToken) : Json :=
  Json.obj [("alg", Json.str "HS256"),
            ("payload", payloadToJson t.payload),
            ("signatureSegment", Json.str "mac")]

/-- Idealized bcrypt digest: records the salt and the hashed content, the
collision-free idealization of the hash (`bcryptjs`, external library). -/
structure BcryptHash where
  salt : Nat
  content : String
deriving DecidableEq, Repr

/-- `bcrypt.hash(password, salt)`. -/
def bcryptHash (salt : Nat) (password : String) : BcryptHash := ⟨salt, password⟩

/-- `bcrypt.compare(candidate, storedHash)`: re-hash the candidate with the
salt recorded in the stored digest and compare digests, as bcrypt does. -/
def bcryptCompare (candidate : String) (h : BcryptHash) : Bool :=
  h == bcryptHash h.salt candidate

/-- A stored user document, after the fields of `models/User.js`
(`userSchema`): name, email (stored lowercased by the schema option
`lowercase: true`), password (the bcrypt hash), avatar (default `null`),
bio (default `""`), role (default `"user"`), plus `_id` and the
`timestamps: true` pair. -/
structure UserDoc where
  mongoId : String
  name : String
  email : String
  password : BcryptHash
  avatar : Option String
  bio : String
  role : String
  createdAt : Nat
  updatedAt : Nat
deriving DecidableEq, Repr

/-- `user.toObject()`: every stored field, including the password hash. -/
def UserDoc.toObject (u : UserDoc) : List (String × Json) :=
  [("_id", Json.str u.mongoId),
   ("name", Json.str u.name),
   ("email", Json.str u.email),
   ("password", Json.str u.password.content),
   ("avatar", match u.avatar with | some a => Json.str a | none => Json.null),
   ("bio", Json.str u.bio),
   ("role", Json.str u.role),
   ("createdAt", Json.num u.createdAt),
   ("updatedAt", Json.num u.updatedAt)]

/-- `userSchema.methods.toJSON`: `const user = this.toObject(); delete
user.password; return user;` — serialize all fields, then drop `password`. -/
def UserDoc.toJSON (u : UserDoc) : Json :=
  Json.obj ((UserDoc.toObject u).filter (fun f => f.1 ≠ "password"))

/-- The Credential Store (MongoDB `users` collection via Mongoose). A set
`fail` models the store being unavailable: when set, every operation
throws that error (caught by the `catch` blocks of the routes). -/
structure Store where
  users : List UserDoc
  fail : Option JsError
deriving Repr

/-- `User.findOne({ email })`. -/
def Store.findOne (db : Store) (email : String) : Except JsError (Option UserDoc) :=
  match db.fail with
  | some e => .error e
  | none => .ok (db.users.find? (fun u => u.email == email))

/-- `User.findById(id)` (the `.select("-password")` at the call sites only
affects serialization, which `UserDoc.toJSON` already strips). -/
def Store.findById (db : Store) (id : String) : Except JsError (Option UserDoc) :=
  match db.fail with
  | some e => .error e
  | none => .ok (db.users.find? (fun u => u.mongoId == id))

/-- `user.save()`: the schema option `unique: true` index on email makes a
duplicate insert throw; otherwise the document is appended. -/
def Store.save (db : Store) (u : UserDoc) : Except JsError Store :=
  match db.fail with
  | some e => .error e
  | none =>
    if db.users.any (fun v => v.email == u.email) then
      .error ⟨"MongoServerError", "E11000 duplicate key error"⟩
    else
      .ok { db with users := db.users ++ [u] }

/-- Registration request body. The route destructures only `name`, `email`,
`password` from `req.body`; `extraRole` models a `role` field a client may
additionally send (never read by the route). -/
structure RegisterBody where
  name : String
  email : String
  password : String
  extraRole : Option String
deriving DecidableEq, Repr

/-- Login request body. -/
structure LoginBody where
  email : String
  password : String
deriving DecidableEq, Repr

/-- Split a character list at every occurrence of `c` (helper for the
email-shape check below). -/
def splitOnChar (c : Char) : List Char → List (List Char)
  | [] => [[]]
  | x :: xs =>
    let r := splitOnChar c xs
    if x == c then [] :: r
    else
      match r with
      | [] => [[x]]
      | h :: t => (x :: h) :: t

/-- ASCII lowercasing of one character. -/
def lowerChar (c : Char) : Char :=
  if 65 ≤ c.toNat ∧ c.toNat ≤ 90 then Char.ofNat (c.toNat + 32) else c

/-- ASCII whitespace (for the `.trim()` sanitizer). -/
def isWsp (c : Char) : Bool := c == ' ' || c == '\t' || c == '\n' || c == '\r'

/-- Leading/trailing-whitespace trim over characters (the `.trim()`
sanitizer of `express-validator`, external library). -/
def trimChars (l : List Char) : List Char :=
  ((l.dropWhile isWsp).reverse.dropWhile isWsp).reverse

/-- Abstraction of `validator.isEmail` from the external `express-validator`
library (library code, not part of this repository): one `@` separating a
nonempty local part from a domain with at least two nonempty dot-separated
labels. No claim depends on its exact extension; it only gates the routes. -/
def isEmailLike (s : String) : Bool :=
  match splitOnChar '@' s.data with
  | [lp, dom] =>
    !lp.isEmpty && (splitOnChar '.' dom).length ≥ 2
      && (splitOnChar '.' dom).all (fun l => !l.isEmpty)
  | _ => false

/-- `normalizeEmail()` from `express-validator` (its `all_lowercase`
default), also the effect of the schema field option `lowercase: true`: lowercase
the address. -/
def normalizeEmail (s : String) : String := ⟨s.data.map lowerChar⟩

/-- One `express-validator` field error, as `errors.array()` reports it:
the message, the offending path, and the submitted value. -/
def fieldError (path msg value : String) : Json :=
  Json.obj [("type", Json.str "field"), ("msg", Json.str msg),
            ("path", Json.str path), ("location", Json.str "body"),
            ("value", Json.str value)]

/-- `registerValidation` (`routes/auth.js`): name trimmed at least 2 chars,
email well-formed, password at least 6 chars; failures collected in order. -/
def registerValidationErrors (b : RegisterBody) : List Json :=
  (if (trimChars b.name.data).length < 2 then
    [fieldError "name" "Name must be at least 2 characters" b.name] else [])
  ++ (if ¬ isEmailLike b.email then
    [fieldError "email" "Please provide a valid email" b.email] else [])
  ++ (if b.password.length < 6 then
    [fieldError "password" "Password must be at least 6 characters" b.password] else [])

/-- `loginValidation` (`routes/auth.js`): email well-formed, password
nonempty. -/
def loginValidationErrors (b : LoginBody) : List Json :=
  (if ¬ isEmailLike b.email then
    [fieldError "email" "Please provide a valid email" b.email] else [])
  ++ (if b.password = "" then
    [fieldError "password" "Password is required" b.password] else [])

/-- The `400` body `{ success: false, errors: errors.array() }`. -/
def validationErrorBody (errors : List Json) : Json :=
  Json.obj [("success", Json.bool false), ("errors", Json.arr errors)]

/-- `POST /api/auth/register`, the `try` part. Inputs beyond the request:
`newId` (the ObjectId Mongo assigns), `salt` (the random `bcrypt.genSalt(10)`
outcome), `now` (clock, seconds). Returns status, body, and the store after
the request. -/
def registerTry (db : Store) (b : RegisterBody) (newId : String) (salt : Nat)
    (now : Nat) : Except JsError (Nat × Json × Store) := do
  let errors := registerValidationErrors b
  if ¬ errors.isEmpty then
    return (400, validationErrorBody errors, db)
  let email := normalizeEmail b.email
  let existingUser ← db.findOne email
  match existingUser with
  | some _ =>
    return (400, Json.obj [("success", Json.bool false),
      ("message", Json.str "A user with this email already exists")], db)
  | none =>
    let hashedPassword := bcryptHash salt b.password
    let user : UserDoc :=
      { mongoId := newId, name := b.name, email := email,
        password := hashedPassword, avatar := none, bio := "",
        role := "user", createdAt := now, updatedAt := now }
    let db2 ← db.save user
    let token := jwtSign JWT_SECRET user.mongoId user.email now JWT_EXPIRES_IN_SECONDS
    return (201, Json.obj [("success", Json.bool true),
      ("message", Json.str "User registered successfully"),
      ("token", tokenToJson token),
      ("user", Json.obj [("id", Json.str user.mongoId),
        ("name", Json.str user.name), ("email", Json.str user.email),
        ("role", Json.str user.role)])], db2)

/-- `POST /api/auth/register` with its `catch`: a thrown error yields
`500 { success: false, message: "Server error during registration",
error: error.message }` and leaves the store as it was. -/
def registerRoute (db : Store) (b : RegisterBody) (newId : String) (salt : Nat)
    (now : Nat) : Nat × Json × Store :=
  match registerTry db b newId salt now with
  | .ok r => r
  | .error e =>
    (500, Json.obj [("success", Json.bool false),
      ("message", Json.str "Server error during registration"),
      ("error", Json.str e.message)], db)

/-- The shared `401 { success: false, message: "Invalid email or password" }`
login failure body (same for unknown email and for wrong password). -/
def invalidCredentialsBody : Json :=
  Json.obj [("success", Json.bool false),
            ("message", Json.str "Invalid email or password")]

/-- `POST /api/auth/login`, the `try` part. -/
def loginTry (db : Store) (b : LoginBody) (now : Nat) :
    Except JsError (Nat × Json) := do
  let errors := loginValidationErrors b
  if ¬ errors.isEmpty then
    return (400, validationErrorBody errors)
  let muser ← db.findOne (normalizeEmail b.email)
  match muser with
  | none => return (401, invalidCredentialsBody)
  | some user =>
    let isMatch := bcryptCompare b.password user.password
    if ¬ isMatch then
      return (401, invalidCredentialsBody)
    else
      let token := jwtSign JWT_SECRET user.mongoId user.email now JWT_EXPIRES_IN_SECONDS
      return (200, Json.obj [("success", Json.bool true),
        ("message", Json.str "Login successful"),
        ("token", tokenToJson token),
        ("user", Json.obj [("id", Json.str user.mongoId),
          ("name", Json.str user.name), ("email", Json.str user.email),
          ("role", Json.str user.role),
          ("avatar", match user.avatar with
            | some a => Json.str a
            | none => Json.null)])])

/-- `POST /api/auth/login` with its `catch`. -/
def loginRoute (db : Store) (b : LoginBody) (now : Nat) : Nat × Json :=
  match loginTry db b now with
  | .ok r => r
  | .error e =>
    (500, Json.obj [("success", Json.bool false),
      ("message", Json.str "Server error during login"),
      ("error", Json.str e.message)])

/-- The incoming `Authorization` header: absent; present but not of the
`Bearer <token>` shape (in which case `replace("Bearer ", "")` leaves the
raw string, itself parsed as a JWT or not); or `Bearer` followed by a
token string. -/
inductive AuthHeader where
  | missing
  | other (w : TokenWire)
  | bearer (w : TokenWire)
deriving DecidableEq, Repr

/-- `GET /api/auth/me`, the `try` part: extract the token with
`req.header("Authorization")?.replace("Bearer ", "")` (no `Bearer` prefix
required), 401 if absent, verify, look the user up (`.select("-password")`),
404 if gone, else `200 { success: true, user }`. -/
def meTry (db : Store) (now : Nat) (h : AuthHeader) :
    Except JsError (Nat × Json) := do
  let token : Option TokenWire :=
    match h with
    | .missing => none
    | .other w => some w
    | .bearer w => some w
  match token with
  | none =>
    return (401, Json.obj [("success", Json.bool false),
      ("message", Json.str "No authentication token provided")])
  | some w =>
    let decoded ← jwtVerify JWT_SECRET now w
    let muser ← db.findById decoded.userId
    match muser with
    | none =>
      return (404, Json.obj [("success", Json.bool false),
        ("message", Json.str "User not found")])
    | some user =>
      return (200, Json.obj [("success", Json.bool true),
        ("user", user.toJSON)])

/-- `GET /api/auth/me` with its `catch`: every thrown error (verify failure
or store failure) collapses to `401 "Token is invalid or expired"`. -/
def meRoute (db : Store) (now : Nat) (h : AuthHeader) : Nat × Json :=
  match meTry db now h with
  | .ok r => r
  | .error _ =>
    (401, Json.obj [("success", Json.bool false),
      ("message", Json.str "Token is invalid or expired")])

/-- `POST /api/auth/logout`: stateless acknowledgement. -/
def logoutRoute : Nat × Json :=
  (200, Json.obj [("success", Json.bool true),
    ("message", Json.str "Logged out successfully")])

/-- The result of running a middleware: either it sent a response itself
(the downstream handler never runs), or it called `next()` exactly once
with `req.user` set to the given identity (or unset). -/
inductive AuthResult where
  | respond (status : Nat) (body : Json)
  | proceed (user : Option UserDoc)
deriving Repr

/-- `authenticate` (`middleware/auth.js`), the `try` part. The header must
be present and start with `"Bearer "`; then verify and look the user up. -/
def authenticateTry (db : Store) (now : Nat) (h : AuthHeader) :
    Except JsError AuthResult := do
  match h with
  | .missing =>
    return .respond 401 (Json.obj [("success", Json.bool false),
      ("message", Json.str "No authentication token provided. Please log in.")])
  | .other _ =>
    return .respond 401 (Json.obj [("success", Json.bool false),
      ("message", Json.str "No authentication token provided. Please log in.")])
  | .bearer w =>
    let decoded ← jwtVerify JWT_SECRET now w
    let muser ← db.findById decoded.userId
    match muser with
    | none =>
      return .respond 401 (Json.obj [("success", Json.bool false),
        ("message", Json.str "User not found. Token invalid.")])
    | some user =>
      return .proceed (some user)

/-- `authenticate` with its `catch`: `JsonWebTokenError` and
`TokenExpiredError` each get their own 401 message, any other error (e.g.
the store throwing) falls through to
`500 { message: "Authentication error", error: error.message }`. -/
def authenticate (db : Store) (now : Nat) (h : AuthHeader) : AuthResult :=
  match authenticateTry db now h with
  | .ok r => r
  | .error e =>
    if e.name == "JsonWebTokenError" then
      .respond 401 (Json.obj [("success", Json.bool false),
        ("message", Json.str "Invalid token. Please log in again.")])
    else if e.name == "TokenExpiredError" then
      .respond 401 (Json.obj [("success", Json.bool false),
        ("message", Json.str "Token expired. Please log in again.")])
    else
      .respond 500 (Json.obj [("success", Json.bool false),
        ("message", Json.str "Authentication error"),
        ("error", Json.str e.message)])

/-- `optionalAuth` (`middleware/auth.js`), the `try` part: only a
`Bearer`-shaped header is even attempted; a found user is attached,
anything else leaves `req.user` unset; `next()` is reached in every case. -/
def optionalAuthTry (db : Store) (now : Nat) (h : AuthHeader) :
    Except JsError (Option UserDoc) := do
  match h with
  | .bearer w =>
    let decoded ← jwtVerify JWT_SECRET now w
    let muser ← db.findById decoded.userId
    match muser with
    | some user => return (some user)
    | none => return none
  | _ => return none

/-- `optionalAuth` with its `catch`: any thrown error is swallowed and the
request continues unauthenticated — the middleware never responds. -/
def optionalAuth (db : Store) (now : Nat) (h : AuthHeader) : AuthResult :=
  match optionalAuthTry db now h with
  | .ok muser => .proceed muser
  | .error _ => .proceed none

/-- The browser `localStorage`: an association list of string keys and
values; `setItem` overwrites, `removeItem` deletes, `getItem` reads. -/
def LocalStorage := List (String × String)

/-- `localStorage.getItem(k)`. -/
def LocalStorage.getItem (s : LocalStorage) (k : String) : Option String :=
  (List.find? (fun kv => kv.1 == k) s).map (fun kv => kv.2)

/-- `localStorage.removeItem(k)`. -/
def LocalStorage.removeItem (s : LocalStorage) (k : String) : LocalStorage :=
  List.filter (fun kv => kv.1 ≠ k) s

/-- Client-side state visible to the axios interceptors: durable storage
and the current window location. -/
structure ClientState where
  storage : LocalStorage
  location : String

/-- The error branch of the client response interceptor
(`blogify-client/src/services/api.js`): on a 401 response it runs
`localStorage.removeItem("token")` and sets `window.location.href` to
the login view; any other status leaves the state untouched. -/
def responseInterceptorOnError (st : ClientState) (status : Nat) : ClientState :=
  if status == 401 then
    { storage := st.storage.removeItem "token", location := "/login" }
  else
    st

theorem hasKeyElems_eq_any (k : String) (l : List Json) :
    Json.hasKeyElems k l = l.any (Json.hasKey k) := by
  induction l with
  | nil => rfl
  | cons x xs ih => simp [Json.hasKeyElems, ih]

theorem hasKeyFields_eq_any (k : String) (l : List (String × Json)) :
    Json.hasKeyFields k l = l.any (fun f => f.1 == k || Json.hasKey k f.2) := by
  induction l with
  | nil => rfl
  | cons x xs ih => simp [Json.hasKeyFields, ih, Bool.or_assoc]

theorem registerRoute_password_free (db : Store) (b : RegisterBody)
    (newId : String) (salt now : Nat) :
    Json.hasKey "password" (registerRoute db b newId salt now).2.1 = false
    ∧ Json.hasKey "passwordHash" (registerRoute db b newId salt now).2.1 = false := by
  have herrs : Json.hasKeyElems "password" (registerValidationErrors b) = false
      ∧ Json.hasKeyElems "passwordHash" (registerValidationErrors b) = false := by
    unfold registerValidationErrors fieldError
    simp only [hasKeyElems_eq_any, List.any_append]
    split <;> split <;> split <;> simp [Json.hasKey, hasKeyFields_eq_any]
  unfold registerRoute registerTry
  by_cases hv : (registerValidationErrors b).isEmpty
  · cases hf : db.fail with
    | some e =>
      simp [hv, hf, Store.findOne, bind, Except.bind, pure, Except.pure,
        Json.hasKey, hasKeyFields_eq_any]
    | none =>
      cases hfind : db.users.find? (fun u => u.email == normalizeEmail b.email) with
      | some u =>
        simp [hv, hf, hfind, Store.findOne, bind, Except.bind, pure, Except.pure,
          Json.hasKey, hasKeyFields_eq_any]
      | none =>
        by_cases hdup : db.users.any (fun v => v.email == normalizeEmail b.email)
        · simp [hv, hf, hfind, hdup, Store.findOne, Store.save, bind, Except.bind,
            pure, Except.pure, Json.hasKey, hasKeyFields_eq_any]
        · simp [hv, hf, hfind, hdup, Store.findOne, Store.save, bind, Except.bind,
            pure, Except.pure, Json.hasKey, hasKeyFields_eq_any,
            tokenToJson, payloadToJson, jwtSign]
  · simp [hv, validationErrorBody, Json.hasKey, hasKeyFields_eq_any, herrs.1,
      herrs.2, hasKeyElems_eq_any, bind, Except.bind, pure, Except.pure]

theorem loginRoute_password_free (db : Store) (b : LoginBody) (now : Nat) :
    Json.hasKey "password" (loginRoute db b now).2 = false
    ∧ Json.hasKey "passwordHash" (loginRoute db b now).2 = false := by
  have herrs : Json.hasKeyElems "password" (loginValidationErrors b) = false
      ∧ Json.hasKeyElems "passwordHash" (loginValidationErrors b) = false := by
    unfold loginValidationErrors fieldError
    simp only [hasKeyElems_eq_any, List.any_append]
    split <;> split <;> simp [Json.hasKey, hasKeyFields_eq_any]
  unfold loginRoute loginTry
  by_cases hv : (loginValidationErrors b).isEmpty
  · cases hf : db.fail with
    | some e =>
      simp [hv, hf, Store.findOne, bind, Except.bind, pure, Except.pure,
        Json.hasKey, hasKeyFields_eq_any]
    | none =>
      cases hfind : db.users.find? (fun u => u.email == normalizeEmail b.email) with
      | some u =>
        by_cases hm : bcryptCompare b.password u.password
        · cases hav : u.avatar <;>
            simp [hv, hf, hfind, hm, hav, Store.findOne, bind, Except.bind, pure,
              Except.pure, Json.hasKey, hasKeyFields_eq_any, invalidCredentialsBody,
              tokenToJson, payloadToJson, jwtSign]
        · simp [hv, hf, hfind, hm, Store.findOne, bind, Except.bind, pure,
            Except.pure, Json.hasKey, hasKeyFields_eq_any, invalidCredentialsBody]
      | none =>
        simp [hv, hf, hfind, Store.findOne, bind, Except.bind, pure, Except.pure,
          Json.hasKey, hasKeyFields_eq_any, invalidCredentialsBody]
  · simp [hv, validationErrorBody, Json.hasKey, hasKeyFields_eq_any, herrs.1,
      herrs.2, hasKeyElems_eq_any, bind, Except.bind, pure, Except.pure]

theorem meTry_other_eq_bearer (db : Store) (now : Nat) (w : TokenWire) :
    meTry db now (.other w) = meTry db now (.bearer w) := rfl

theorem meRoute_password_free (db : Store) (now : Nat) (h : AuthHeader) :
    Json.hasKey "password" (meRoute db now h).2 = false
    ∧ Json.hasKey "passwordHash" (meRoute db now h).2 = false := by
  have hbearer : ∀ w : TokenWire,
      Json.hasKey "password" (meRoute db now (.bearer w)).2 = false
      ∧ Json.hasKey "passwordHash" (meRoute db now (.bearer w)).2 = false := by
    intro w
    unfold meRoute meTry
    cases hver : jwtVerify JWT_SECRET now w with
    | error e =>
      simp [hver, bind, Except.bind, pure, Except.pure, Json.hasKey, hasKeyFields_eq_any]
    | ok p =>
      cases hf : db.fail with
      | some e =>
        simp [hver, hf, Store.findById, bind, Except.bind, pure, Except.pure,
          Json.hasKey, hasKeyFields_eq_any]
      | none =>
        cases hfind : db.users.find? (fun u => u.mongoId == p.userId) with
        | some u =>
          cases hav : u.avatar <;>
            simp [hver, hf, hfind, hav, Store.findById, bind, Except.bind, pure,
              Except.pure, Json.hasKey, hasKeyFields_eq_any, UserDoc.toJSON,
              UserDoc.toObject]
        | none =>
          simp [hver, hf, hfind, Store.findById, bind, Except.bind, pure,
            Except.pure, Json.hasKey, hasKeyFields_eq_any]
  cases h with
  | missing =>
    unfold meRoute meTry
    simp [Json.hasKey, hasKeyFields_eq_any, bind, Except.bind, pure, Except.pure]
  | other w =>
    have : meRoute db now (.other w) = meRoute db now (.bearer w) := by
      unfold meRoute; rw [meTry_other_eq_bearer]
    rw [this]; exact hbearer w
  | bearer w => exact hbearer w

/-- C1: no response of register, login, or `GET /auth/me` contains a
`password` or `passwordHash` field anywhere in its body, and the token
payload consists of exactly `userId`, `email`, `iat`, `exp`. -/
theorem auth_responses_never_expose_password
    (db : Store) (rb : RegisterBody) (lb : LoginBody) (h : AuthHeader)
    (newId : String) (salt now : Nat) (p : JwtPayload) :
    Json.hasKey "password" (registerRoute db rb newId salt now).2.1 = false
    ∧ Json.hasKey "passwordHash" (registerRoute db rb newId salt now).2.1 = false
    ∧ Json.hasKey "password" (loginRoute db lb now).2 = false
    ∧ Json.hasKey "passwordHash" (loginRoute db lb now).2 = false
    ∧ Json.hasKey "password" (meRoute db now h).2 = false
    ∧ Json.hasKey "passwordHash" (meRoute db now h).2 = false
    ∧ payloadToJson p
        = Json.obj [("userId", Json.str p.userId), ("email", Json.str p.email),
                    ("iat", Json.num p.iat), ("exp", Json.num p.exp)] :=
  ⟨(registerRoute_password_free db rb newId salt now).1,
   (registerRoute_password_free db rb newId salt now).2,
   (loginRoute_password_free db lb now).1,
   (loginRoute_password_free db lb now).2,
   (meRoute_password_free db now h).1,
   (meRoute_password_free db now h).2,
   rfl⟩

/-- C2: verifying a token issued for an identity under the same secret, at
any time before the time-to-live has elapsed, succeeds and returns exactly
the id of the identity (as `userId`) and email, plus the added `iat` and `exp`. -/
theorem jwt_sign_verify_roundtrip (secret id email : String) (now checkTime : Nat)
    (hlive : checkTime < now + JWT_EXPIRES_IN_SECONDS) :
    jwtVerify secret checkTime
      (.tok (jwtSign secret id email now JWT_EXPIRES_IN_SECONDS))
      = .ok ⟨id, email, now, now + JWT_EXPIRES_IN_SECONDS⟩ := by
  unfold jwtVerify jwtSign hmacSign
  simp only []
  rw [if_neg (by simp), if_neg (by omega)]

/-- Witness for C2 at a concrete identity and clock. -/
theorem jwt_sign_verify_roundtrip_witness :
    jwtVerify "s3cret" 1000
      (.tok (jwtSign "s3cret" "64a001" "ann@x.com" 1000 JWT_EXPIRES_IN_SECONDS))
      = .ok ⟨"64a001", "ann@x.com", 1000, 1000 + JWT_EXPIRES_IN_SECONDS⟩ :=
  jwt_sign_verify_roundtrip "s3cret" "64a001" "ann@x.com" 1000 1000
    (by simp [JWT_EXPIRES_IN_SECONDS])

/-- C3: an untampered token (correctly signed under the verifying secret)
whose time-to-live has elapsed fails verification with the
`TokenExpiredError`, never with the invalid-signature error (at no time
does verification of an untampered token produce the invalid-signature
error), and `authenticate` surfaces it through the `TokenExpiredError`
branch as `401` "Token expired. Please log in again.". -/
theorem expired_token_fails_expired_never_invalid_signature
    (secret : String) (p : JwtPayload) (now : Nat) (db : Store)
    (helapsed : p.exp ≤ now) :
    jwtVerify secret now (.tok ⟨p, hmacSign secret p⟩)
      = .error ⟨"TokenExpiredError", "jwt expired"⟩
    ∧ (∀ t : Nat, jwtVerify secret t (.tok ⟨p, hmacSign secret p⟩)
        ≠ .error ⟨"JsonWebTokenError", "invalid signature"⟩)
    ∧ authenticate db now (.bearer (.tok ⟨p, hmacSign JWT_SECRET p⟩))
      = .respond 401 (Json.obj [("success", Json.bool false),
          ("message", Json.str "Token expired. Please log in again.")]) := by
  have hver : jwtVerify secret now (.tok ⟨p, hmacSign secret p⟩)
      = .error ⟨"TokenExpiredError", "jwt expired"⟩ := by
    simp [jwtVerify, helapsed]
  have hver2 : jwtVerify JWT_SECRET now (.tok ⟨p, hmacSign JWT_SECRET p⟩)
      = .error ⟨"TokenExpiredError", "jwt expired"⟩ := by
    simp [jwtVerify, helapsed]
  refine ⟨hver, ?_, ?_⟩
  · intro t
    simp only [jwtVerify]
    split
    · simp_all
    · split <;> simp
  · unfold authenticate authenticateTry
    simp [hver2, bind, Except.bind, pure, Except.pure]

/-- Witness for C3: a token signed at 0 expiring at 10, verified at 20. -/
theorem expired_token_fails_expired_witness :
    jwtVerify "s3cret" 20
      (.tok ⟨⟨"64a001", "ann@x.com", 0, 10⟩, hmacSign "s3cret" ⟨"64a001", "ann@x.com", 0, 10⟩⟩)
      = .error ⟨"TokenExpiredError", "jwt expired"⟩
    ∧ authenticate ⟨[], none⟩ 20
      (.bearer (.tok ⟨⟨"64a001", "ann@x.com", 0, 10⟩,
        hmacSign JWT_SECRET ⟨"64a001", "ann@x.com", 0, 10⟩⟩))
      = .respond 401 (Json.obj [("success", Json.bool false),
          ("message", Json.str "Token expired. Please log in again.")]) :=
  ⟨(expired_token_fails_expired_never_invalid_signature "s3cret"
      ⟨"64a001", "ann@x.com", 0, 10⟩ 20 ⟨[], none⟩ (by decide)).1,
   (expired_token_fails_expired_never_invalid_signature "s3cret"
      ⟨"64a001", "ann@x.com", 0, 10⟩ 20 ⟨[], none⟩ (by decide)).2.2⟩

/-- C4: a valid, unexpired token whose user no longer exists in the store:
`GET /auth/me` answers `404` "User not found", and the strict `authenticate`
middleware fails with its user-not-found response (sending a response, so
no identity is ever attached and the downstream handler does not run). -/
theorem strict_auth_orphaned_token_user_not_found
    (db : Store) (p : JwtPayload) (now : Nat)
    (hfail : db.fail = none)
    (hvalid : now < p.exp)
    (hgone : db.users.find? (fun u => u.mongoId == p.userId) = none) :
    meRoute db now (.bearer (.tok ⟨p, hmacSign JWT_SECRET p⟩))
      = (404, Json.obj [("success", Json.bool false),
          ("message", Json.str "User not found")])
    ∧ authenticate db now (.bearer (.tok ⟨p, hmacSign JWT_SECRET p⟩))
      = .respond 401 (Json.obj [("success", Json.bool false),
          ("message", Json.str "User not found. Token invalid.")]) := by
  have hnl : ¬ (p.exp ≤ now) := by omega
  have hver : jwtVerify JWT_SECRET now (.tok ⟨p, hmacSign JWT_SECRET p⟩)
      = .ok p := by
    simp [jwtVerify, hnl]
  constructor
  · unfold meRoute meTry
    simp [hver, hfail, hgone, Store.findById, bind, Except.bind, pure, Except.pure]
  · unfold authenticate authenticateTry
    simp [hver, hfail, hgone, Store.findById, bind, Except.bind, pure, Except.pure]

/-- Witness for C4: an empty store and a token valid until 10, used at 5. -/
theorem strict_auth_orphaned_token_witness :
    meRoute ⟨[], none⟩ 5
      (.bearer (.tok ⟨⟨"64a001", "ann@x.com", 0, 10⟩,
        hmacSign JWT_SECRET ⟨"64a001", "ann@x.com", 0, 10⟩⟩))
      = (404, Json.obj [("success", Json.bool false),
          ("message", Json.str "User not found")])
    ∧ authenticate ⟨[], none⟩ 5
      (.bearer (.tok ⟨⟨"64a001", "ann@x.com", 0, 10⟩,
        hmacSign JWT_SECRET ⟨"64a001", "ann@x.com", 0, 10⟩⟩))
      = .respond 401 (Json.obj [("success", Json.bool false),
          ("message", Json.str "User not found. Token invalid.")]) :=
  strict_auth_orphaned_token_user_not_found ⟨[], none⟩
    ⟨"64a001", "ann@x.com", 0, 10⟩ 5 rfl (by decide) rfl

/-- C7: a login attempt with an existing email but a wrong password and a
login attempt with a nonexistent email produce the same status (401) and
the same body ("Invalid email or password"), so the response does not
reveal whether the email exists. -/
theorem login_non_enumeration
    (db : Store) (u : UserDoc) (e1 pw1 e2 pw2 orig : String) (salt : Nat)
    (now1 now2 : Nat)
    (hfail : db.fail = none)
    (hv1 : (loginValidationErrors ⟨e1, pw1⟩).isEmpty)
    (hv2 : (loginValidationErrors ⟨e2, pw2⟩).isEmpty)
    (hfound : db.users.find? (fun v => v.email == normalizeEmail e1) = some u)
    (hhash : u.password = bcryptHash salt orig)
    (hwrong : pw1 ≠ orig)
    (hnone : db.users.find? (fun v => v.email == normalizeEmail e2) = none) :
    loginRoute db ⟨e1, pw1⟩ now1 = (401, invalidCredentialsBody)
    ∧ loginRoute db ⟨e2, pw2⟩ now2 = (401, invalidCredentialsBody) := by
  have hcmp : bcryptCompare pw1 u.password = false := by
    simp [bcryptCompare, bcryptHash, hhash, BcryptHash.mk.injEq]
    intro h
    exact absurd h.symm hwrong
  constructor
  · unfold loginRoute loginTry
    simp [hv1, hfail, hfound, hcmp, Store.findOne, bind, Except.bind, pure, Except.pure]
  · unfold loginRoute loginTry
    simp [hv2, hfail, hnone, Store.findOne, bind, Except.bind, pure, Except.pure]

/-- Witness for C7: a one-user store; wrong password for the existing
`ann@x.com` versus unknown `bob@x.com`. -/
theorem login_non_enumeration_witness :
    loginRoute ⟨[⟨"id1", "Ann", "ann@x.com", bcryptHash 3 "secret1", none, "", "user", 0, 0⟩], none⟩
        ⟨"ann@x.com", "wrongpw"⟩ 5 = (401, invalidCredentialsBody)
    ∧ loginRoute ⟨[⟨"id1", "Ann", "ann@x.com", bcryptHash 3 "secret1", none, "", "user", 0, 0⟩], none⟩
        ⟨"bob@x.com", "secret1"⟩ 6 = (401, invalidCredentialsBody) :=
  login_non_enumeration
    ⟨[⟨"id1", "Ann", "ann@x.com", bcryptHash 3 "secret1", none, "", "user", 0, 0⟩], none⟩
    ⟨"id1", "Ann", "ann@x.com", bcryptHash 3 "secret1", none, "", "user", 0, 0⟩
    "ann@x.com" "wrongpw" "bob@x.com" "secret1" "secret1" 3 5 6
    rfl (by decide) (by decide) (by decide) rfl (by decide) (by decide)

/-- C8: after a successful registration, a second registration whose email
is equal up to letter case fails with 400 and the duplicate-email message,
issues no token, and leaves the store exactly as the first registration
left it (the first record is not overwritten). -/
theorem duplicate_registration_case_insensitive
    (db : Store) (b1 b2 : RegisterBody) (id1 id2 : String) (s1 s2 n1 n2 : Nat)
    (hfail : db.fail = none)
    (hv1 : (registerValidationErrors b1).isEmpty)
    (hv2 : (registerValidationErrors b2).isEmpty)
    (hfresh : db.users.find? (fun u => u.email == normalizeEmail b1.email) = none)
    (hcase : normalizeEmail b2.email = normalizeEmail b1.email) :
    (registerRoute db b1 id1 s1 n1).1 = 201
    ∧ (registerRoute db b1 id1 s1 n1).2.2
        = ⟨db.users ++ [⟨id1, b1.name, normalizeEmail b1.email,
            bcryptHash s1 b1.password, none, "", "user", n1, n1⟩], none⟩
    ∧ registerRoute (registerRoute db b1 id1 s1 n1).2.2 b2 id2 s2 n2
        = (400, Json.obj [("success", Json.bool false),
            ("message", Json.str "A user with this email already exists")],
           (registerRoute db b1 id1 s1 n1).2.2)
    ∧ Json.hasKey "token"
        (registerRoute (registerRoute db b1 id1 s1 n1).2.2 b2 id2 s2 n2).2.1
        = false := by
  have hany : db.users.any (fun v => v.email == normalizeEmail b1.email) = false := by
    rw [List.any_eq_false]
    intro x hx
    have := List.find?_eq_none.mp hfresh x hx
    simpa using this
  have hrun1 : registerRoute db b1 id1 s1 n1
      = (201,
         Json.obj [("success", Json.bool true),
           ("message", Json.str "User registered successfully"),
           ("token", tokenToJson (jwtSign JWT_SECRET id1 (normalizeEmail b1.email)
              n1 JWT_EXPIRES_IN_SECONDS)),
           ("user", Json.obj [("id", Json.str id1), ("name", Json.str b1.name),
             ("email", Json.str (normalizeEmail b1.email)),
             ("role", Json.str "user")])],
         ⟨db.users ++ [⟨id1, b1.name, normalizeEmail b1.email,
            bcryptHash s1 b1.password, none, "", "user", n1, n1⟩], none⟩) := by
    unfold registerRoute registerTry
    simp [hv1, hfail, hfresh, hany, Store.findOne, Store.save, bind, Except.bind,
      pure, Except.pure]
  have hrun2 : registerRoute ⟨db.users ++ [⟨id1, b1.name, normalizeEmail b1.email,
        bcryptHash s1 b1.password, none, "", "user", n1, n1⟩], none⟩ b2 id2 s2 n2
      = (400, Json.obj [("success", Json.bool false),
          ("message", Json.str "A user with this email already exists")],
         ⟨db.users ++ [⟨id1, b1.name, normalizeEmail b1.email,
            bcryptHash s1 b1.password, none, "", "user", n1, n1⟩], none⟩) := by
    unfold registerRoute registerTry
    simp [hv2, hcase, hfresh, Store.findOne, List.find?_append, bind, Except.bind,
      pure, Except.pure]
  refine ⟨by rw [hrun1], by rw [hrun1], ?_, ?_⟩
  · rw [hrun1]
    simpa using hrun2
  · rw [hrun1]
    simp only []
    rw [hrun2]
    simp [Json.hasKey, hasKeyFields_eq_any]

/-- Witness for C8: register `Ann@X.com`, then attempt `ann@x.com`. -/
theorem duplicate_registration_witness :
    (registerRoute ⟨[], none⟩ ⟨"Ann", "Ann@X.com", "secret1", none⟩ "id1" 3 10).1 = 201
    ∧ registerRoute
        (registerRoute ⟨[], none⟩ ⟨"Ann", "Ann@X.com", "secret1", none⟩ "id1" 3 10).2.2
        ⟨"Bob", "ann@x.com", "secret2", none⟩ "id2" 4 20
      = (400, Json.obj [("success", Json.bool false),
          ("message", Json.str "A user with this email already exists")],
         (registerRoute ⟨[], none⟩ ⟨"Ann", "Ann@X.com", "secret1", none⟩ "id1" 3 10).2.2)
    ∧ Json.hasKey "token"
        (registerRoute
          (registerRoute ⟨[], none⟩ ⟨"Ann", "Ann@X.com", "secret1", none⟩ "id1" 3 10).2.2
          ⟨"Bob", "ann@x.com", "secret2", none⟩ "id2" 4 20).2.1 = false :=
  ⟨(duplicate_registration_case_insensitive ⟨[], none⟩
      ⟨"Ann", "Ann@X.com", "secret1", none⟩ ⟨"Bob", "ann@x.com", "secret2", none⟩
      "id1" "id2" 3 4 10 20 rfl (by decide) (by decide) rfl (by decide)).1,
   (duplicate_registration_case_insensitive ⟨[], none⟩
      ⟨"Ann", "Ann@X.com", "secret1", none⟩ ⟨"Bob", "ann@x.com", "secret2", none⟩
      "id1" "id2" 3 4 10 20 rfl (by decide) (by decide) rfl (by decide)).2.2.1,
   (duplicate_registration_case_insensitive ⟨[], none⟩
      ⟨"Ann", "Ann@X.com", "secret1", none⟩ ⟨"Bob", "ann@x.com", "secret2", none⟩
      "id1" "id2" 3 4 10 20 rfl (by decide) (by decide) rfl (by decide)).2.2.2⟩

/-- C10: registration reads only name, email and password from the request
body, so the created record always has role `"user"` regardless of any
`role` field a client sends, and the response and stored state are
completely independent of that field. -/
theorem register_role_always_user
    (db : Store) (b : RegisterBody) (newId : String) (salt now : Nat)
    (hfail : db.fail = none)
    (hv : (registerValidationErrors b).isEmpty)
    (hfresh : db.users.find? (fun u => u.email == normalizeEmail b.email) = none) :
    (registerRoute db b newId salt now).2.2.users
      = db.users ++ [⟨newId, b.name, normalizeEmail b.email,
          bcryptHash salt b.password, none, "", "user", now, now⟩]
    ∧ (∀ r1 r2 : Option String,
        registerRoute db ⟨b.name, b.email, b.password, r1⟩ newId salt now
          = registerRoute db ⟨b.name, b.email, b.password, r2⟩ newId salt now) := by
  have hany : db.users.any (fun v => v.email == normalizeEmail b.email) = false := by
    rw [List.any_eq_false]
    intro x hx
    have := List.find?_eq_none.mp hfresh x hx
    simpa using this
  constructor
  · unfold registerRoute registerTry
    simp [hv, hfail, hfresh, hany, Store.findOne, Store.save, bind, Except.bind,
      pure, Except.pure]
  · intro r1 r2
    rfl

/-- Witness for C10: a registration body carrying `role: "admin"` still
creates a `"user"` record, identically to a body with no role field. -/
theorem register_role_always_user_witness :
    (registerRoute ⟨[], none⟩ ⟨"Ann", "ann@x.com", "secret1", some "admin"⟩
        "id1" 3 10).2.2.users
      = [⟨"id1", "Ann", "ann@x.com", bcryptHash 3 "secret1", none, "", "user", 10, 10⟩]
    ∧ registerRoute ⟨[], none⟩ ⟨"Ann", "ann@x.com", "secret1", some "admin"⟩ "id1" 3 10
      = registerRoute ⟨[], none⟩ ⟨"Ann", "ann@x.com", "secret1", none⟩ "id1" 3 10 :=
  ⟨((register_role_always_user ⟨[], none⟩ ⟨"Ann", "ann@x.com", "secret1", some "admin"⟩
      "id1" 3 10 rfl (by decide) rfl).1).trans (by decide),
   (register_role_always_user ⟨[], none⟩ ⟨"Ann", "ann@x.com", "secret1", some "admin"⟩
      "id1" 3 10 rfl (by decide) rfl).2 (some "admin") none⟩

/-- C9: `optionalAuth` never blocks: on every request it calls the
downstream handler exactly once (`proceed`) and never sends a response; on
every failure — missing header, malformed token, expired token, tampered
token, user not found — it attaches no identity, and an expired-token
request yields exactly the same middleware outcome as no token at all. -/
theorem optionalAuth_never_blocks (db : Store) (now : Nat) :
    (∀ h : AuthHeader, ∃ mu, optionalAuth db now h = .proceed mu)
    ∧ optionalAuth db now .missing = .proceed none
    ∧ (∀ s, optionalAuth db now (.bearer (.malformed s)) = .proceed none)
    ∧ (∀ p : JwtPayload, p.exp ≤ now →
        optionalAuth db now (.bearer (.tok ⟨p, hmacSign JWT_SECRET p⟩))
          = .proceed none
        ∧ optionalAuth db now (.bearer (.tok ⟨p, hmacSign JWT_SECRET p⟩))
          = optionalAuth db now .missing)
    ∧ (∀ t : JwtToken, t.signature ≠ hmacSign JWT_SECRET t.payload →
        optionalAuth db now (.bearer (.tok t)) = .proceed none)
    ∧ (∀ p : JwtPayload, now < p.exp → db.fail = none →
        db.users.find? (fun u => u.mongoId == p.userId) = none →
        optionalAuth db now (.bearer (.tok ⟨p, hmacSign JWT_SECRET p⟩))
          = .proceed none) := by
  refine ⟨?_, rfl, ?_, ?_, ?_, ?_⟩
  · intro h
    unfold optionalAuth
    cases h2 : optionalAuthTry db now h with
    | ok mu => exact ⟨mu, rfl⟩
    | error e => exact ⟨none, rfl⟩
  · intro s
    rfl
  · intro p hexp
    have hver : jwtVerify JWT_SECRET now (.tok ⟨p, hmacSign JWT_SECRET p⟩)
        = .error ⟨"TokenExpiredError", "jwt expired"⟩ := by
      simp [jwtVerify, hexp]
    constructor
    · unfold optionalAuth optionalAuthTry
      simp [hver, bind, Except.bind, pure, Except.pure]
    · unfold optionalAuth optionalAuthTry
      simp [hver, bind, Except.bind, pure, Except.pure]
  · intro t ht
    have hver : jwtVerify JWT_SECRET now (.tok t)
        = .error ⟨"JsonWebTokenError", "invalid signature"⟩ := by
      simp [jwtVerify, ht]
    unfold optionalAuth optionalAuthTry
    simp [hver, bind, Except.bind, pure, Except.pure]
  · intro p hlive hfail hgone
    have hnl : ¬ (p.exp ≤ now) := by omega
    have hver : jwtVerify JWT_SECRET now (.tok ⟨p, hmacSign JWT_SECRET p⟩)
        = .ok p := by
      simp [jwtVerify, hnl]
    unfold optionalAuth optionalAuthTry
    simp [hver, hfail, hgone, Store.findById, bind, Except.bind, pure, Except.pure]

/-- Witness for C9 at concrete inputs: empty store, clock 20; an expired
token (exp 10), a tampered token (signed under a different secret), and an
orphaned token (user id not in the store). -/
theorem optionalAuth_never_blocks_witness :
    optionalAuth ⟨[], none⟩ 20 .missing = .proceed none
    ∧ optionalAuth ⟨[], none⟩ 20 (.bearer (.malformed "garbage")) = .proceed none
    ∧ optionalAuth ⟨[], none⟩ 20
        (.bearer (.tok ⟨⟨"id1", "a@b.co", 0, 10⟩,
          hmacSign JWT_SECRET ⟨"id1", "a@b.co", 0, 10⟩⟩))
      = .proceed none
    ∧ optionalAuth ⟨[], none⟩ 20
        (.bearer (.tok ⟨⟨"id1", "a@b.co", 0, 100⟩,
          hmacSign "other" ⟨"id1", "a@b.co", 0, 100⟩⟩))
      = .proceed none
    ∧ optionalAuth ⟨[], none⟩ 20
        (.bearer (.tok ⟨⟨"id2", "c@d.co", 0, 100⟩,
          hmacSign JWT_SECRET ⟨"id2", "c@d.co", 0, 100⟩⟩))
      = .proceed none :=
  ⟨(optionalAuth_never_blocks ⟨[], none⟩ 20).2.1,
   (optionalAuth_never_blocks ⟨[], none⟩ 20).2.2.1 "garbage",
   ((optionalAuth_never_blocks ⟨[], none⟩ 20).2.2.2.1
      ⟨"id1", "a@b.co", 0, 10⟩ (by decide)).1,
   (optionalAuth_never_blocks ⟨[], none⟩ 20).2.2.2.2.1
      ⟨⟨"id1", "a@b.co", 0, 100⟩, hmacSign "other" ⟨"id1", "a@b.co", 0, 100⟩⟩
      (by decide),
   (optionalAuth_never_blocks ⟨[], none⟩ 20).2.2.2.2.2
      ⟨"id2", "c@d.co", 0, 100⟩ (by decide) rfl rfl⟩

/-- C6, counterexample: with the Credential Store unavailable, the register
500 body is not generic — it carries the message of the underlying
exception under the `error` key, contradicting the claim that the
exception message is never included in the body returned to the caller. -/
theorem server_error_body_includes_exception_message :
    (registerRoute
        ⟨[], some ⟨"MongoNetworkError", "connect ECONNREFUSED 127.0.0.1:27017"⟩⟩
        ⟨"Ann", "ann@x.com", "secret1", none⟩ "id1" 3 10).2.1
      = Json.obj [("success", Json.bool false),
          ("message", Json.str "Server error during registration"),
          ("error", Json.str "connect ECONNREFUSED 127.0.0.1:27017")]
    ∧ Json.hasKey "error"
        (registerRoute
          ⟨[], some ⟨"MongoNetworkError", "connect ECONNREFUSED 127.0.0.1:27017"⟩⟩
          ⟨"Ann", "ann@x.com", "secret1", none⟩ "id1" 3 10).2.1 = true := by
  have hv : (registerValidationErrors ⟨"Ann", "ann@x.com", "secret1", none⟩).isEmpty
      = true := by decide
  have hbody : (registerRoute
        ⟨[], some ⟨"MongoNetworkError", "connect ECONNREFUSED 127.0.0.1:27017"⟩⟩
        ⟨"Ann", "ann@x.com", "secret1", none⟩ "id1" 3 10).2.1
      = Json.obj [("success", Json.bool false),
          ("message", Json.str "Server error during registration"),
          ("error", Json.str "connect ECONNREFUSED 127.0.0.1:27017")] := by
    unfold registerRoute registerTry
    simp [hv, Store.findOne, bind, Except.bind, pure, Except.pure]
  refine ⟨hbody, ?_⟩
  rw [hbody]
  simp [Json.hasKey, hasKeyFields_eq_any]

/-- C6, amended: every unexpected lower-level failure in register, login,
or strict authentication yields status 500 with a fixed generic `message`
and never a `stack` field, but the message of the underlying exception is
included under the `error` key of the body. -/
theorem server_error_generic_message_without_stack
    (db : Store) (e : JsError) (b : RegisterBody) (lb : LoginBody)
    (now : Nat) (newId : String) (salt : Nat)
    (hfail : db.fail = some e)
    (hvr : (registerValidationErrors b).isEmpty)
    (hvl : (loginValidationErrors lb).isEmpty)
    (hname1 : e.name ≠ "JsonWebTokenError")
    (hname2 : e.name ≠ "TokenExpiredError") :
    registerRoute db b newId salt now
      = (500, Json.obj [("success", Json.bool false),
          ("message", Json.str "Server error during registration"),
          ("error", Json.str e.message)], db)
    ∧ loginRoute db lb now
      = (500, Json.obj [("success", Json.bool false),
          ("message", Json.str "Server error during login"),
          ("error", Json.str e.message)])
    ∧ (∀ p : JwtPayload, now < p.exp →
        authenticate db now (.bearer (.tok ⟨p, hmacSign JWT_SECRET p⟩))
          = .respond 500 (Json.obj [("success", Json.bool false),
              ("message", Json.str "Authentication error"),
              ("error", Json.str e.message)]))
    ∧ Json.hasKey "stack" (registerRoute db b newId salt now).2.1 = false
    ∧ Json.hasKey "stack" (loginRoute db lb now).2 = false := by
  have hreg : registerRoute db b newId salt now
      = (500, Json.obj [("success", Json.bool false),
          ("message", Json.str "Server error during registration"),
          ("error", Json.str e.message)], db) := by
    unfold registerRoute registerTry
    simp [hvr, hfail, Store.findOne, bind, Except.bind, pure, Except.pure]
  have hlog : loginRoute db lb now
      = (500, Json.obj [("success", Json.bool false),
          ("message", Json.str "Server error during login"),
          ("error", Json.str e.message)]) := by
    unfold loginRoute loginTry
    simp [hvl, hfail, Store.findOne, bind, Except.bind, pure, Except.pure]
  refine ⟨hreg, hlog, ?_, ?_, ?_⟩
  · intro p hlive
    have hnl : ¬ (p.exp ≤ now) := by omega
    have hver : jwtVerify JWT_SECRET now (.tok ⟨p, hmacSign JWT_SECRET p⟩)
        = .ok p := by
      simp [jwtVerify, hnl]
    unfold authenticate authenticateTry
    simp [hver, hfail, hname1, hname2, Store.findById, bind, Except.bind, pure,
      Except.pure]
  · rw [hreg]
    simp [Json.hasKey, hasKeyFields_eq_any]
  · rw [hlog]
    simp [Json.hasKey, hasKeyFields_eq_any]

/-- Witness for the amended C6 at a concrete store failure. -/
theorem server_error_generic_message_witness :
    registerRoute ⟨[], some ⟨"MongoNetworkError", "connect ECONNREFUSED"⟩⟩
        ⟨"Ann", "ann@x.com", "secret1", none⟩ "id1" 3 10
      = (500, Json.obj [("success", Json.bool false),
          ("message", Json.str "Server error during registration"),
          ("error", Json.str "connect ECONNREFUSED")],
         ⟨[], some ⟨"MongoNetworkError", "connect ECONNREFUSED"⟩⟩)
    ∧ loginRoute ⟨[], some ⟨"MongoNetworkError", "connect ECONNREFUSED"⟩⟩
        ⟨"ann@x.com", "secret1"⟩ 10
      = (500, Json.obj [("success", Json.bool false),
          ("message", Json.str "Server error during login"),
          ("error", Json.str "connect ECONNREFUSED")])
    ∧ authenticate ⟨[], some ⟨"MongoNetworkError", "connect ECONNREFUSED"⟩⟩ 10
        (.bearer (.tok ⟨⟨"id1", "a@b.co", 0, 100⟩,
          hmacSign JWT_SECRET ⟨"id1", "a@b.co", 0, 100⟩⟩))
      = .respond 500 (Json.obj [("success", Json.bool false),
          ("message", Json.str "Authentication error"),
          ("error", Json.str "connect ECONNREFUSED")]) :=
  ⟨(server_error_generic_message_without_stack
      ⟨[], some ⟨"MongoNetworkError", "connect ECONNREFUSED"⟩⟩
      ⟨"MongoNetworkError", "connect ECONNREFUSED"⟩
      ⟨"Ann", "ann@x.com", "secret1", none⟩ ⟨"ann@x.com", "secret1"⟩
      10 "id1" 3 rfl (by decide) (by decide) (by decide) (by decide)).1,
   (server_error_generic_message_without_stack
      ⟨[], some ⟨"MongoNetworkError", "connect ECONNREFUSED"⟩⟩
      ⟨"MongoNetworkError", "connect ECONNREFUSED"⟩
      ⟨"Ann", "ann@x.com", "secret1", none⟩ ⟨"ann@x.com", "secret1"⟩
      10 "id1" 3 rfl (by decide) (by decide) (by decide) (by decide)).2.1,
   (server_error_generic_message_without_stack
      ⟨[], some ⟨"MongoNetworkError", "connect ECONNREFUSED"⟩⟩
      ⟨"MongoNetworkError", "connect ECONNREFUSED"⟩
      ⟨"Ann", "ann@x.com", "secret1", none⟩ ⟨"ann@x.com", "secret1"⟩
      10 "id1" 3 rfl (by decide) (by decide) (by decide) (by decide)).2.2.1
      ⟨"id1", "a@b.co", 0, 100⟩ (by decide)⟩

/-- C5, code evaluated at the failing input: the shipped client response
interceptor (`blogify-client/src/services/api.js`) on a 401 removes only
the `token` key and redirects, leaving the stored `user` record in durable
storage — unlike the version documented in the repository guide, which
removes both. -/
theorem response_interceptor_keeps_user_record :
    ((responseInterceptorOnError
        ⟨[("token", "t1"), ("user", "u1")], "/dashboard"⟩ 401).storage.getItem "user"
      = some "u1")
    ∧ ((responseInterceptorOnError
        ⟨[("token", "t1"), ("user", "u1")], "/dashboard"⟩ 401).storage.getItem "token"
      = none)
    ∧ (responseInterceptorOnError
        ⟨[("token", "t1"), ("user", "u1")], "/dashboard"⟩ 401).location = "/login" := by
  refine ⟨?_, ?_, ?_⟩ <;> decide
